import Mathlib

/-!
Formal model of the Home Assistant / Yggdrasil adapter scripts
(`ygg_ha_adapter.py`, `set-property.py`, `adjust_lux_on_events.py`,
`ha_utils.py`).  Python functions are translated into executable Lean
definitions; dictionaries become association lists with last-write-wins
lookup, Python truthiness on optional strings is made explicit, and the
numeric parsing performed by Python's `int()` / `float()` built-ins is
embedded over ASCII digit strings (with the underscore-separator rule);
IEEE special values are represented symbolically.
-/

namespace AmiAdapter

/-- XSD type URI constants from `ygg_ha_adapter.py`. -/
def XSD_BOOL : String := "http://www.w3.org/2001/XMLSchema#boolean"

def XSD_INT : String := "http://www.w3.org/2001/XMLSchema#integer"

def XSD_DOUBLE : String := "http://www.w3.org/2001/XMLSchema#double"

def XSD_STRING : String := "http://www.w3.org/2001/XMLSchema#string"

/-- Result of Python `float()`: a finite rational, an infinity, or nan. -/
inductive PyFloat where
  | finite (q : Rat)
  | inf (neg : Bool)
  | nan
deriving DecidableEq, Repr

/-- A Python value as produced by the adapter's classification code. -/
inductive PyValue where
  | bool (b : Bool)
  | int (i : Int)
  | float (f : PyFloat)
  | str (s : String)
deriving DecidableEq, Repr

/-- Python `str.strip()` on both ends, over the character list. -/
def pyStrip (s : String) : List Char :=
  ((s.toList.dropWhile Char.isWhitespace).reverse.dropWhile Char.isWhitespace).reverse

/-- Consume a run of ASCII digits, allowing a single underscore between
two digits (Python numeric-literal rule); returns the accumulated value,
the number of digits consumed and the unconsumed remainder. -/
def digRun (acc cnt : Nat) : List Char → Nat × Nat × List Char
  | [] => (acc, cnt, [])
  | c :: rest =>
    if c.isDigit then digRun (acc * 10 + (c.toNat - 48)) (cnt + 1) rest
    else if c = '_' then
      match rest with
      | d :: rest2 =>
        if d.isDigit then digRun (acc * 10 + (d.toNat - 48)) (cnt + 1) rest2
        else (acc, cnt, c :: rest)
      | [] => (acc, cnt, c :: rest)
    else (acc, cnt, c :: rest)

/-- Python `int(s)` on a string: optional surrounding whitespace, one
optional sign, then a non-empty ASCII digit run (underscore separators
allowed); anything left over makes the parse fail. -/
def pyInt? (s : String) : Option Int :=
  let cs := pyStrip s
  let signed : Int × List Char :=
    match cs with
    | '+' :: r => (1, r)
    | '-' :: r => (-1, r)
    | r => (1, r)
  let parsed := digRun 0 0 signed.2
  if parsed.2.1 > 0 ∧ parsed.2.2 = [] then some (signed.1 * parsed.1) else none

/-- Parse the optional exponent suffix of a Python float literal;
`none` on a malformed exponent, `some e` otherwise (`e = 0` when there
is no exponent at all). -/
def parseExp : List Char → Option Int
  | [] => some 0
  | c :: rest =>
    if c = 'e' ∨ c = 'E' then
      let signed : Int × List Char :=
        match rest with
        | '+' :: r => (1, r)
        | '-' :: r => (-1, r)
        | r => (1, r)
      let parsed := digRun 0 0 signed.2
      if parsed.2.1 > 0 ∧ parsed.2.2 = [] then some (signed.1 * parsed.1) else none
    else none

/-- Assemble the rational value of a finite float literal from sign,
integer part, fraction digits (with their count) and exponent; built
with `mkRat` so that the kernel can evaluate it. -/
def mkFloatRat (sign : Int) (ip fp fc : Nat) (e : Int) : Rat :=
  let m : Int := sign * ((ip : Int) * (10 : Int) ^ fc + (fp : Int))
  if 0 ≤ e then mkRat (m * (10 : Int) ^ e.toNat) (10 ^ fc)
  else mkRat m (10 ^ fc * 10 ^ (-e).toNat)

/-- Python `float(s)` on a string: optional whitespace and sign, then
either `inf`/`infinity`/`nan` (case-insensitive) or a decimal literal
`digits [. digits] [exponent]` with at least one mantissa digit. -/
def pyFloat? (s : String) : Option PyFloat :=
  let cs := pyStrip s
  let signed : Int × List Char :=
    match cs with
    | '+' :: r => (1, r)
    | '-' :: r => (-1, r)
    | r => (1, r)
  let low := String.mk (signed.2.map Char.toLower)
  if low = "inf" ∨ low = "infinity" then some (.inf (signed.1 < 0))
  else if low = "nan" then some .nan
  else
    let ipr := digRun 0 0 signed.2
    match ipr.2.2 with
    | '.' :: r2 =>
      let fpr := digRun 0 0 r2
      if ipr.2.1 + fpr.2.1 = 0 then none
      else
        match parseExp fpr.2.2 with
        | some e => some (.finite (mkFloatRat signed.1 ipr.1 fpr.1 fpr.2.1 e))
        | none => none
    | _ =>
      if ipr.2.1 = 0 then none
      else
        match parseExp ipr.2.2 with
        | some e => some (.finite (mkFloatRat signed.1 ipr.1 0 0 e))
        | none => none

/-- `_infer_value_and_type` from `ygg_ha_adapter.py`: `"on"`/`"off"`
become booleans, then `int()` is tried, then `float()`, otherwise the
raw string is kept. -/
def inferValueAndType (state : String) : PyValue × String :=
  if state = "on" ∨ state = "off" then (.bool (state = "on"), XSD_BOOL)
  else
    match pyInt? state with
    | some i => (.int i, XSD_INT)
    | none =>
      match pyFloat? state with
      | some f => (.float f, XSD_DOUBLE)
      | none => (.str state, XSD_STRING)

/-! ## Registry model (`ha_utils.py` registries, `_build_entity_area_map`) -/

/-- A device-registry record (the fields the adapter reads). -/
structure HADevice where
  id : String
  name : Option String
  area_id : Option String
deriving DecidableEq, Repr

/-- An entity-registry record (the fields the adapter reads). -/
structure HAEntity where
  entity_id : String
  device_id : Option String
  area_id : Option String
deriving DecidableEq, Repr

/-- Python truthiness of an optional string: `None` and `""` are falsy. -/
def truthy : Option String → Option String
  | some s => if s = "" then none else some s
  | none => none

/-- Lookup in the dict `{d["id"]: d for d in devices}`: a later binding
for the same id overwrites an earlier one. -/
def devById (devices : List HADevice) (i : String) : Option HADevice :=
  devices.foldl (fun acc d => if d.id = i then some d else acc) none

/-- Association-list lookup with dict overwrite semantics (the last
inserted binding for a key wins). -/
def dictLookup (m : List (String × String)) (k : String) : Option String :=
  m.foldl (fun acc kv => if kv.1 = k then some kv.2 else acc) none

/-- The per-entity area resolution of `_build_entity_area_map`: the
entity's own (truthy) `area_id`, else the owning device's (truthy)
`area_id`, else nothing. -/
def entityArea (devices : List HADevice) (e : HAEntity) : Option String :=
  match truthy e.area_id with
  | some a => some a
  | none =>
    match truthy e.device_id with
    | some did =>
      match devById devices did with
      | some d => truthy d.area_id
      | none => none
    | none => none

/-- The `ent_to_area` dict: one binding per entity whose area resolves. -/
def entToAreaList (devices : List HADevice) (entities : List HAEntity) :
    List (String × String) :=
  entities.foldl (fun m e =>
    match entityArea devices e with
    | some a => m ++ [(e.entity_id, a)]
    | none => m) []

/-- The `ent_to_device` dict: one binding per entity with a truthy
`device_id`. -/
def entToDeviceList (entities : List HAEntity) : List (String × String) :=
  entities.foldl (fun m e =>
    match truthy e.device_id with
    | some did => m ++ [(e.entity_id, did)]
    | none => m) []

/-- A point-in-time snapshot of the device and entity registries. -/
structure Registry where
  devices : List HADevice
  entities : List HAEntity
deriving DecidableEq, Repr

/-- The derived Registry Index returned by `_build_entity_area_map`:
`ent_to_area`, `ent_to_device` and `dev_by_id` (the latter kept as the
device list, looked up through `devById`). -/
structure RegIndex where
  entToArea : List (String × String)
  entToDevice : List (String × String)
  devices : List HADevice
deriving DecidableEq, Repr

/-- `_build_entity_area_map`: build all three maps from one snapshot. -/
def buildEntityAreaMap (r : Registry) : RegIndex :=
  ⟨entToAreaList r.devices r.entities, entToDeviceList r.entities, r.devices⟩

/-! ## Forwarder task lifecycle (`_event_forwarder_task`) -/

/-- The forwarder task's loop state: the registry index it holds and how
many reconnect cycles have completed. -/
structure ForwarderState where
  index : RegIndex
  reconnects : Nat
deriving DecidableEq, Repr

/-- Task start: `ent_to_area, ent_to_device, dev_by_id =
await _build_entity_area_map()` runs once, before `while True` — the
first (and only) registry fetch is snapshot number 0. -/
def forwarderStart (snaps : Nat → Registry) : ForwarderState :=
  ⟨buildEntityAreaMap (snaps 0), 0⟩

/-- The outer-loop `except` branch sleeps and re-enters the loop; the
maps bound before the loop are left untouched. -/
def forwarderReconnect (s : ForwarderState) : ForwarderState :=
  ⟨s.index, s.reconnects + 1⟩

/-- Forwarder state after `n` reconnect cycles. -/
def forwarderAfter (snaps : Nat → Registry) : Nat → ForwarderState
  | 0 => forwarderStart snaps
  | n + 1 => forwarderReconnect (forwarderAfter snaps n)

/-! ## Percent-encoding (`urllib.parse.quote(name, safe="")`) -/

/-- UTF-8 encoding of one character, as byte values. -/
def utf8Bytes (c : Char) : List Nat :=
  let n := c.toNat
  if n < 0x80 then [n]
  else if n < 0x800 then [0xC0 + n / 0x40, 0x80 + n % 0x40]
  else if n < 0x10000 then
    [0xE0 + n / 0x1000, 0x80 + n / 0x40 % 0x40, 0x80 + n % 0x40]
  else
    [0xF0 + n / 0x40000, 0x80 + n / 0x1000 % 0x40, 0x80 + n / 0x40 % 0x40,
     0x80 + n % 0x40]

/-- Upper-case hexadecimal digits. -/
def hexDigits : List Char :=
  ['0', '1', '2', '3', '4', '5', '6', '7', '8', '9', 'A', 'B', 'C', 'D', 'E', 'F']

/-- Bytes `quote` leaves unescaped: ASCII alphanumerics and `_.-~`. -/
def quoteSafeByte (b : Nat) : Bool :=
  (65 ≤ b && b ≤ 90) || (97 ≤ b && b ≤ 122) || (48 ≤ b && b ≤ 57) ||
    b = 95 || b = 46 || b = 45 || b = 126

/-- Percent-encode one byte. -/
def quoteByte (b : Nat) : List Char :=
  if quoteSafeByte b then [Char.ofNat b]
  else ['%', hexDigits.getD (b / 16) '0', hexDigits.getD (b % 16) '0']

/-- `urllib.parse.quote(s, safe="")`. -/
def pyQuote (s : String) : String :=
  String.mk ((s.toList.map (fun c => ((utf8Bytes c).map quoteByte).flatten)).flatten)

/-- Python `s.rstrip("/")`. -/
def rstripSlash (s : String) : String :=
  String.mk ((s.toList.reverse.dropWhile (fun c => c = '/')).reverse)

/-- `entity_id.split(".", 1)[-1]`: everything after the first dot, or
the whole string when there is no dot. -/
def objectIdOf (s : String) : String :=
  if s.toList.contains '.' then
    String.mk ((s.toList.dropWhile (fun c => c ≠ '.')).drop 1)
  else s

/-- `ent.split(".")[0] if "." in ent else ""`: the domain prefix. -/
def domainOf (s : String) : String :=
  if s.toList.contains '.' then String.mk (s.toList.takeWhile (fun c => c ≠ '.'))
  else ""

/-! ## Event forwarder per-event processing -/

/-- The fields of a `new_state` object the forwarder reads.  Attribute
values are kept as strings (the forwarder only ever reads
`device_class`, a string attribute). -/
structure NewStateMsg where
  state : Option String
  attributes : List (String × String)
deriving DecidableEq, Repr

/-- The `data` member of a `state_changed` event. -/
structure HAEventData where
  entity_id : Option String
  new_state : Option NewStateMsg
deriving DecidableEq, Repr

/-- A WebSocket message as read by the forwarder loop (missing string
members are modelled as values that fail the corresponding `==` test). -/
structure HAEventMsg where
  type : String
  event_type : String
  data : HAEventData
  time_fired : Option String
deriving DecidableEq, Repr

/-- `AREAS and area_id not in AREAS`: the allow-list rejects the area
iff it is non-empty and does not contain the area. -/
def areaBlocked (areas : List String) (area : String) : Bool :=
  !areas.isEmpty && !areas.contains area

/-- The data handed from the filter to classification and payload
construction: entity id, state string, resolved area, new-state
attributes and event timestamp. -/
structure FilteredEvent where
  entity_id : String
  state : String
  area_id : String
  attributes : List (String × String)
  time_fired : Option String
deriving DecidableEq, Repr

/-- The filtering prefix of the forwarder's per-event loop body:
returns the data handed to classification and payload construction, or
`none` when the event is dropped before either happens. -/
def eventFilter (index : RegIndex) (areas : List String) (msg : HAEventMsg) :
    Option FilteredEvent :=
  if msg.type ≠ "event" then none
  else if msg.event_type ≠ "state_changed" then none
  else
    match truthy msg.data.entity_id with
    | none => none
    | some eid =>
      match (msg.data.new_state.getD ⟨none, []⟩).state with
      | none => none
      | some st =>
        if st = "unknown" ∨ st = "unavailable" then none
        else
          match truthy (dictLookup index.entToArea eid) with
          | none => none
          | some area =>
            if areaBlocked areas area then none
            else some ⟨eid, st, area,
              (msg.data.new_state.getD ⟨none, []⟩).attributes, msg.time_fired⟩

/-- The JSON body POSTed to the monitor for one forwarded event. -/
structure MonitorPayload where
  artifactUri : String
  propertyUri : String
  value : PyValue
  valueTypeUri : String
  timestamp : Option String
  triggerUri : String
deriving DecidableEq, Repr

/-- The full per-event loop body: filtering, artifact-name resolution,
value classification and payload construction; `none` means the event
was dropped and nothing is delivered. -/
def forwardEvent (index : RegIndex) (areas : List String) (baseWsUri : String)
    (msg : HAEventMsg) : Option MonitorPayload :=
  match eventFilter index areas msg with
  | none => none
  | some fe =>
    let device_name :=
      match truthy (dictLookup index.entToDevice fe.entity_id) with
      | some did =>
        match devById index.devices did with
        | some d =>
          match truthy d.name with
          | some nm => nm
          | none => objectIdOf fe.entity_id
        | none => objectIdOf fe.entity_id
      | none => objectIdOf fe.entity_id
    let artifact_name := pyQuote device_name
    let prop :=
      match truthy (dictLookup fe.attributes "device_class") with
      | some dc => dc
      | none => "state"
    let vt := inferValueAndType fe.state
    let artifact_profile :=
      rstripSlash baseWsUri ++ "/workspaces/" ++ fe.area_id ++ "/artifacts/" ++
        artifact_name
    some ⟨artifact_profile ++ "#artifact", artifact_profile ++ "/props/" ++ prop,
          vt.1, vt.2, fe.time_fired, artifact_profile ++ "/actions/read"⟩

/-! ## Service selection (`set-property.py` `select_service`) -/

/-- The parts of a service definition read by the selector: the declared
field names and, per `target.entity` entry, that entry's domain list. -/
structure ServiceMeta where
  fields : List String
  target : List (List String)
deriving DecidableEq, Repr

/-- One element of the `/api/services` response: a domain with its
services in enumeration order. -/
structure ServiceDomain where
  domain : String
  services : List (String × ServiceMeta)
deriving DecidableEq, Repr

/-- The candidate dict appended by the selector. -/
structure Choice where
  domain : String
  name : String
  fields : List String
  score : Nat
deriving DecidableEq, Repr

/-- `"entity_id" in fields` (legacy applicability). -/
def legacyApplies (meta : ServiceMeta) : Bool := meta.fields.contains "entity_id"

/-- `any(ent_domain in (t.get("domain") or []) for t in target)` (modern
applicability). -/
def modernApplies (entDomain : String) (meta : ServiceMeta) : Bool :=
  meta.target.any (fun t => t.contains entDomain)

/-- Substring test on character lists (Python `"set" in name`). -/
def containsSub (needle : List Char) : List Char → Bool
  | [] => needle.isEmpty
  | c :: rest => needle.isPrefixOf (c :: rest) || containsSub needle rest

/-- The Phase-B score of one service for the request. -/
def serviceScore (entDomain prop dom name : String) (meta : ServiceMeta) : Nat :=
  (if dom = "virtual" then 5 else 0) +
  (if containsSub "set".toList name.toList then 3 else 0) +
  (if meta.fields.contains prop then 3 else 0) +
  (if prop = "state" ∧ meta.fields.contains "value" then 2 else 0) +
  (if dom = entDomain then 1 else 0)

/-- The candidate list built by the Phase-B double loop, in enumeration
order: applicable services with a strictly positive score. -/
def phaseBCandidates (entDomain prop : String) (services : List ServiceDomain) :
    List Choice :=
  (services.map (fun svc =>
    svc.services.filterMap (fun nv =>
      if legacyApplies nv.2 ∨ modernApplies entDomain nv.2 then
        if 0 < serviceScore entDomain prop svc.domain nv.1 nv.2 then
          some ⟨svc.domain, nv.1, nv.2.fields,
            serviceScore entDomain prop svc.domain nv.1 nv.2⟩
        else none
      else none))).flatten

/-- Phase B: sort the candidates by score, descending and stable
(Python `list.sort(key=..., reverse=True)`), and return the first; or
`None` when there is no candidate. -/
def phaseB (entDomain prop : String) (services : List ServiceDomain) : Option Choice :=
  if phaseBCandidates entDomain prop services = [] then none
  else ((phaseBCandidates entDomain prop services).mergeSort
    (fun a b => decide (b.score ≤ a.score))).head?

/-- `str(value).strip().lower()`, the normalized desired value. -/
def normDesired (v : String) : String := String.mk ((pyStrip v).map Char.toLower)

/-- The normalized values meaning "on". -/
def onValues : List String := ["on", "true", "1", "open"]

/-- The normalized values meaning "off". -/
def offValues : List String := ["off", "false", "0", "closed", "close"]

/-- Phase A of `select_service`: the domain-specific shortcut for
`prop == "state"`; `none` means fall through to Phase B. -/
def phaseA (entDomain prop valueStr : String) : Option Choice :=
  if prop = "state" then
    let desired := normDesired valueStr
    let fromOnOff : Option Choice :=
      if entDomain ∈ ["light", "switch", "fan", "input_boolean"] then
        if onValues.contains desired then some ⟨entDomain, "turn_on", ["entity_id"], 100⟩
        else if offValues.contains desired then
          some ⟨entDomain, "turn_off", ["entity_id"], 100⟩
        else none
      else none
    match fromOnOff with
    | some c => some c
    | none =>
      if entDomain = "cover" then
        if desired = "open" then some ⟨"cover", "open_cover", ["entity_id"], 100⟩
        else if desired = "closed" ∨ desired = "close" then
          some ⟨"cover", "close_cover", ["entity_id"], 100⟩
        else none
      else none
  else none

/-- `select_service`: Phase A shortcut first, else Phase B scoring.
`valueStr` stands for Python `str(value)`. -/
def select_service (entDomain prop valueStr : String)
    (services : List ServiceDomain) : Option Choice :=
  match phaseA entDomain prop valueStr with
  | some c => some c
  | none => phaseB entDomain prop services

/-- The first element of a list attaining the maximal value of `f`
(`none` on the empty list): the specification-side description of a
stable descending sort followed by taking the first element. -/
def firstMaxBy {α : Type} (f : α → Nat) : List α → Option α
  | [] => none
  | a :: l =>
    match firstMaxBy f l with
    | none => some a
    | some b => if f a < f b then some b else some a

/-! ## Service-call payload construction (`set-property.py` lines 206-226) -/

/-- Dict assignment `m[k] = v` on an association list: replace the
binding if the key is present, else append it. -/
def dictSet : List (String × PyValue) → String → PyValue → List (String × PyValue)
  | [], k, v => [(k, v)]
  | kv :: rest, k, v =>
    if kv.1 = k then (k, v) :: rest else kv :: dictSet rest k v

/-- Dict lookup on an association list of `PyValue`s. -/
def dictGet : List (String × PyValue) → String → Option PyValue
  | [], _ => none
  | kv :: rest, k => if kv.1 = k then some kv.2 else dictGet rest k

/-- The service-call payload built once a service is chosen: starts as
`{"entity_id": entity_id}` and then maps the property to a field
following the if/elif chain of the source. -/
def buildPayload (entity_id entDomain prop : String) (fields : List String)
    (value : PyValue) : List (String × PyValue) :=
  let payload := [("entity_id", PyValue.str entity_id)]
  if prop = "state" then
    if fields.contains "value" then dictSet payload "value" value else payload
  else if fields.contains prop then dictSet payload prop value
  else if entDomain = "light" ∧ (prop = "brightness" ∨ prop = "brightness_pct") then
    dictSet payload prop value
  else dictSet payload prop value

/-- The payload rule as the specification words it (for every chosen
service: a `"value"` field routes the value to `"value"`, else a field
matching the property routes it there, else the property name is the
catch-all key) — stated for comparison with `buildPayload`. -/
def claimedPayload (entity_id prop : String) (fields : List String)
    (value : PyValue) : List (String × PyValue) :=
  let key :=
    if fields.contains "value" then "value"
    else if fields.contains prop then prop
    else prop
  dictSet [("entity_id", PyValue.str entity_id)] key value

/-! ## Fallback direct state write (`set-property.py` lines 239-255) -/

/-- An entity state snapshot as returned by `GET /api/states/{id}`. -/
structure EntityState where
  state : Option PyValue
  attributes : List (String × PyValue)
deriving DecidableEq, Repr

/-- The body of the fallback `POST /api/states/{entity_id}`: the
requested value replaces the state for `prop == "state"`, else it is
written into (a copy of) the attributes under `prop`. -/
def fallbackStatePayload (current : EntityState) (prop : String)
    (value : PyValue) : EntityState :=
  let new_state := if prop = "state" then some value else current.state
  let new_attrs :=
    if prop ≠ "state" then dictSet current.attributes prop value
    else current.attributes
  ⟨new_state, new_attrs⟩

/-! ## Illuminance accumulator (`adjust_lux_on_events.py`) -/

/-- The parts of a state object the accumulator reads: the state string
and the parsed `current_position` attribute (`none` when the attribute
is missing or `int()` raises). -/
structure LuxState where
  state : Option String
  current_position : Option Int
deriving DecidableEq, Repr

/-- One `state_changed` event as read by `_delta_from_event`; a missing
or empty (falsy) `old_state` dict is `none`. -/
structure LuxEvent where
  entity_id : String
  new_state : Option LuxState
  old_state : Option LuxState
deriving DecidableEq, Repr

/-- `_delta_from_event`: the signed delta and source tag for one event. -/
def deltaFromEvent (ev : LuxEvent) (incL decL incB decB : Int) : Int × String :=
  let new := ev.new_state.getD ⟨none, none⟩
  let state := String.mk ((new.state.getD "").toList.map Char.toLower)
  let domain := domainOf ev.entity_id
  if domain = "light" ∧ state = "on" then (incL, "light")
  else if domain = "light" ∧ state = "off" then (-decL, "light")
  else if domain = "cover" ∧ (state = "opening" ∨ state = "open") then (incB, "cover")
  else if domain = "cover" ∧ (state = "closing" ∨ state = "closed") then (-decB, "cover")
  else if domain = "cover" then
    match new.current_position with
    | none => (0, "")
    | some np =>
      match ev.old_state with
      | none => (0, "")
      | some old =>
        match old.current_position with
        | none => (0, "")
        | some op =>
          if np > op then (incB, "cover")
          else if np < op then (-decB, "cover")
          else (0, "")
  else (0, "")

/-- Rational addition via `mkRat` (kernel-evaluable; proved equal to
`+` below). -/
def ratAdd (a b : Rat) : Rat :=
  mkRat (a.num * (b.den : Int) + b.num * (a.den : Int)) (a.den * b.den)

/-- `max(0.0, x)` via `Rat.blt` (kernel-evaluable; proved equal to
`max 0 x` below). -/
def ratMax0 (a : Rat) : Rat := if a.blt 0 then mkRat 0 1 else a

/-- One accumulator write: `new_val = max(0.0, cur_val + float(delta))`. -/
def adjustStep (cur : Rat) (delta : Int) : Rat := ratAdd cur (mkRat delta 1) |> ratMax0

/-- The sequence of values written back by the accumulator loop run on
an event list, starting from `start` (single-writer assumption: each
fetch returns the previously written value); events with delta 0 are
skipped and write nothing. -/
def runAdjust (incL decL incB decB : Int) : Rat → List LuxEvent → List Rat
  | _, [] => []
  | cur, ev :: rest =>
    if (deltaFromEvent ev incL decL incB decB).1 = 0 then
      runAdjust incL decL incB decB cur rest
    else
      adjustStep cur (deltaFromEvent ev incL decL incB decB).1 ::
        runAdjust incL decL incB decB
          (adjustStep cur (deltaFromEvent ev incL decL incB decB).1) rest

/-! ## Sensor action naming (`_sanitize_unit`, `_camel_token`,
`_sensor_action_name`) -/

/-- The fixed unit symbol table of `_sanitize_unit`. -/
def unitSymbolTable : List (String × String) :=
  [("°C", "degc"), ("°F", "degf"), ("%", "percent"), ("µg/m³", "ugm3"),
   ("μg/m³", "ugm3"), ("kWh", "kwh"), ("W", "w"), ("Wh", "wh"), ("V", "v"),
   ("A", "a"), ("lx", "lx")]

/-- `_sanitize_unit`: falsy input rejected, the symbol table consulted
first, otherwise non-alphanumeric characters stripped and the result
lowercased (`None` when nothing remains).  ASCII alphanumerics model
Python `str.isalnum`. -/
def sanitizeUnit (unit : Option String) : Option String :=
  match unit with
  | none => none
  | some u =>
    if u = "" then none
    else
      match unitSymbolTable.find? (fun kv => kv.1 = u) with
      | some kv => some kv.2
      | none =>
        let core := String.mk ((u.toList.filter Char.isAlphanum).map Char.toLower)
        if core = "" then none else some core

/-- Python `str.capitalize`: first character upper-cased, the rest
lower-cased (ASCII). -/
def pyCapitalize : List Char → List Char
  | [] => []
  | c :: rest => c.toUpper :: rest.map Char.toLower

/-- Split a character list into maximal space-free words. -/
def wordsAux (cur : List Char) (acc : List (List Char)) : List Char → List (List Char)
  | [] => if cur = [] then acc.reverse else (cur.reverse :: acc).reverse
  | c :: rest =>
    if c = ' ' then
      if cur = [] then wordsAux [] acc rest
      else wordsAux [] (cur.reverse :: acc) rest
    else wordsAux (c :: cur) acc rest

/-- `_camel_token`: replace non-alphanumerics with spaces, split, and
concatenate the capitalized parts. -/
def camelToken (token : String) : String :=
  let spaced := token.toList.map (fun ch => if ch.isAlphanum then ch else ' ')
  String.mk ((wordsAux [] [] spaced).map pyCapitalize).flatten

/-- `_sensor_action_name`: `get<DeviceClass>In<Unit>` when a (stripped)
device class exists, else `getIn<Unit>`; `None` when the unit does not
sanitize to a non-empty token. -/
def sensorActionName (device_class unit : Option String) : Option String :=
  match sanitizeUnit unit with
  | none => none
  | some su =>
    if su = "" then none
    else
      let unit_cc := camelToken su
      let dc := String.mk (pyStrip (device_class.getD ""))
      if dc ≠ "" then some ("get" ++ camelToken dc ++ "In" ++ unit_cc)
      else some ("getIn" ++ unit_cc)

/-! ## Helper lemmas -/

theorem ratAdd_eq (a b : Rat) : ratAdd a b = a + b := by
  unfold ratAdd
  rw [Rat.mkRat_eq_divInt]
  conv_rhs => rw [← Rat.num_divInt_den a, ← Rat.num_divInt_den b,
    Rat.divInt_add_divInt _ _ (by exact_mod_cast a.den_ne_zero)
      (by exact_mod_cast b.den_ne_zero)]
  push_cast
  rfl

theorem ratMax0_eq (a : Rat) : ratMax0 a = max 0 a := by
  unfold ratMax0
  split
  · rename_i h
    have hlt : a < 0 := h
    rw [max_eq_left (le_of_lt hlt)]
    decide
  · rename_i h
    have hle : 0 ≤ a := le_of_not_lt fun hlt => h hlt
    rw [max_eq_right hle]

theorem ratMax0_nonneg (a : Rat) : 0 ≤ ratMax0 a := by
  rw [ratMax0_eq]
  exact le_max_left 0 a

theorem adjustStep_nonneg (cur : Rat) (delta : Int) : 0 ≤ adjustStep cur delta :=
  ratMax0_nonneg _

theorem firstMaxBy_mem {α : Type} (f : α → Nat) (l : List α) (b : α)
    (h : firstMaxBy f l = some b) : b ∈ l := by
  induction l generalizing b with
  | nil => simp [firstMaxBy] at h
  | cons a t ih =>
    rw [firstMaxBy] at h
    cases ht : firstMaxBy f t with
    | none => rw [ht] at h; simp at h; simp [h]
    | some c =>
      rw [ht] at h
      by_cases hfa : f a < f c
      · simp [hfa] at h
        subst h
        exact List.mem_cons_of_mem a (ih _ ht)
      · simp [hfa] at h
        simp [h]

theorem head_mergeSort_eq_firstMaxBy {α : Type} (f : α → Nat) (l : List α) :
    (l.mergeSort (fun a b => decide (f b ≤ f a))).head? = firstMaxBy f l := by
  induction l with
  | nil => simp [firstMaxBy]
  | cons a t ih =>
    have trans : ∀ x y z : α, decide (f y ≤ f x) → decide (f z ≤ f y) →
        decide (f z ≤ f x) := by
      intro x y z h1 h2
      simp only [decide_eq_true_eq] at *
      omega
    have total : ∀ x y : α, decide (f y ≤ f x) || decide (f x ≤ f y) := by
      intro x y
      simp only [Bool.or_eq_true, decide_eq_true_eq]
      omega
    obtain ⟨l₁, l₂, h1, h2, h3⟩ := List.mergeSort_cons trans total a t
    cases l₁ with
    | nil =>
      simp only [List.nil_append] at h1 h2
      rw [h1]
      cases ht : firstMaxBy f t with
      | none =>
        have : t = [] := by
          cases t with
          | nil => rfl
          | cons x xs =>
            rw [firstMaxBy] at ht
            cases hx : firstMaxBy f xs <;>
              (rw [hx] at ht; simp at ht; try split at ht) <;> simp at ht
        subst this
        simp [firstMaxBy]
      | some b =>
        have hb : b ∈ t := firstMaxBy_mem f t b ht
        have hsorted := List.sorted_mergeSort trans total (a :: t)
        rw [h1] at hsorted
        have hbmem : b ∈ l₂ := by
          rw [← h2]
          exact List.mem_mergeSort.mpr hb
        have hble : f b ≤ f a := by
          have := (List.pairwise_cons.mp hsorted).1 b hbmem
          simpa using this
        simp [firstMaxBy, ht, Nat.not_lt.mpr hble]
    | cons c l₁t =>
      have hfc : f a < f c := by
        simpa using h3 c (List.mem_cons_self c l₁t)
      have hct : firstMaxBy f t = some c := by
        rw [← ih, h2]
        simp
      rw [h1]
      simp only [List.cons_append, List.head?_cons]
      rw [firstMaxBy, hct]
      simp [hfc]

theorem phaseB_eq_firstMaxBy (entDomain prop : String)
    (services : List ServiceDomain) :
    phaseB entDomain prop services =
      firstMaxBy (fun c => c.score) (phaseBCandidates entDomain prop services) := by
  unfold phaseB
  split
  · rename_i h
    rw [h]
    simp [firstMaxBy]
  · exact head_mergeSort_eq_firstMaxBy _ _

theorem dictGet_dictSet_self (m : List (String × PyValue)) (k : String)
    (v : PyValue) : dictGet (dictSet m k v) k = some v := by
  induction m with
  | nil => simp [dictSet, dictGet]
  | cons kv rest ih =>
    by_cases h : kv.1 = k
    · simp [dictSet, dictGet, h]
    · simp [dictSet, dictGet, h, ih]

theorem dictGet_dictSet_other (m : List (String × PyValue)) (k k2 : String)
    (v : PyValue) (h : k2 ≠ k) : dictGet (dictSet m k v) k2 = dictGet m k2 := by
  induction m with
  | nil => simp [dictSet, dictGet, Ne.symm h]
  | cons kv rest ih =>
    by_cases hk : kv.1 = k
    · simp [dictSet, dictGet, hk, Ne.symm h]
    · by_cases hk2 : kv.1 = k2
      · simp [dictSet, dictGet, hk, hk2, ih, h]
      · simp [dictSet, dictGet, hk, hk2, ih, h]

theorem dictLookup_append_single (m : List (String × String)) (k v q : String) :
    dictLookup (m ++ [(k, v)]) q = if k = q then some v else dictLookup m q := by
  simp [dictLookup, List.foldl_append]

theorem entToAreaList_lookup_frame (devices : List HADevice) (eid : String) :
    ∀ (entities : List HAEntity) (m0 : List (String × String)),
      (∀ e ∈ entities, e.entity_id = eid → entityArea devices e = none) →
      dictLookup (entities.foldl (fun m e =>
        match entityArea devices e with
        | some a => m ++ [(e.entity_id, a)]
        | none => m) m0) eid = dictLookup m0 eid := by
  intro entities
  induction entities with
  | nil => intro m0 _; simp
  | cons e t ih =>
    intro m0 h
    simp only [List.foldl_cons]
    cases hea : entityArea devices e with
    | none => exact ih _ fun x hx hx2 => h x (List.mem_cons_of_mem _ hx) hx2
    | some a =>
      by_cases heq : e.entity_id = eid
      · exact absurd hea (by simp [h e (List.mem_cons_self e t) heq])
      · rw [ih _ fun x hx hx2 => h x (List.mem_cons_of_mem _ hx) hx2,
          dictLookup_append_single, if_neg heq]

/-! ## Claim theorems -/

/-- C3: the Value Classifier applies its rules in order with first match
winning — `"on"`/`"off"` give booleans, then integer parsing, then
float parsing, then the raw string; `"23.5"` classifies as the double
23.5 and `"unlocked"` as a string. -/
theorem C3_value_classifier_rules :
    inferValueAndType "on" = (.bool true, XSD_BOOL) ∧
    inferValueAndType "off" = (.bool false, XSD_BOOL) ∧
    (∀ s i, s ≠ "on" → s ≠ "off" → pyInt? s = some i →
      inferValueAndType s = (.int i, XSD_INT)) ∧
    (∀ s f, s ≠ "on" → s ≠ "off" → pyInt? s = none → pyFloat? s = some f →
      inferValueAndType s = (.float f, XSD_DOUBLE)) ∧
    (∀ s, s ≠ "on" → s ≠ "off" → pyInt? s = none → pyFloat? s = none →
      inferValueAndType s = (.str s, XSD_STRING)) ∧
    inferValueAndType "23.5" = (.float (.finite (mkRat 47 2)), XSD_DOUBLE) ∧
    inferValueAndType "unlocked" = (.str "unlocked", XSD_STRING) := by
  refine ⟨by decide, by decide, ?_, ?_, ?_, by decide, by decide⟩
  · intro s i h1 h2 h3
    simp [inferValueAndType, h1, h2, h3]
  · intro s f h1 h2 h3 h4
    simp [inferValueAndType, h1, h2, h3, h4]
  · intro s h1 h2 h3 h4
    simp [inferValueAndType, h1, h2, h3, h4]

/-- Witness for C3 at concrete inputs. -/
theorem C3_value_classifier_rules_witness :
    inferValueAndType "17" = (.int 17, XSD_INT) ∧
    inferValueAndType "1e3" = (.float (.finite (mkRat 1000 1)), XSD_DOUBLE) ∧
    inferValueAndType "open" = (.str "open", XSD_STRING) :=
  ⟨C3_value_classifier_rules.2.2.1 "17" 17 (by decide) (by decide) (by decide),
   C3_value_classifier_rules.2.2.2.1 "1e3" (.finite (mkRat 1000 1)) (by decide)
     (by decide) (by decide) (by decide),
   C3_value_classifier_rules.2.2.2.2.1 "open" (by decide) (by decide) (by decide)
     (by decide)⟩

/-- C8: the synthesized sensor action name is `get<DeviceClass>In<Unit>`
when a (stripped) device class exists, `getIn<Unit>` otherwise, built
from the sanitized unit and title-cased tokens; no action is produced
when the unit does not sanitize to a non-empty token; device class
`"temperature"` with unit `"°C"` gives `getTemperatureInDegc`, and no
device class with unit `"%"` gives `getInPercent`. -/
theorem C8_sensor_action_naming :
    (∀ dc u, sanitizeUnit u = none → sensorActionName dc u = none) ∧
    (∀ dc u su, sanitizeUnit (some u) = some su → su ≠ "" →
      String.mk (pyStrip dc) ≠ "" →
      sensorActionName (some dc) (some u) =
        some ("get" ++ camelToken (String.mk (pyStrip dc)) ++ "In" ++ camelToken su)) ∧
    (∀ u su, sanitizeUnit (some u) = some su → su ≠ "" →
      sensorActionName none (some u) = some ("getIn" ++ camelToken su)) ∧
    sensorActionName (some "temperature") (some "°C") = some "getTemperatureInDegc" ∧
    sensorActionName none (some "%") = some "getInPercent" := by
  refine ⟨?_, ?_, ?_, by decide, by decide⟩
  · intro dc u h
    simp [sensorActionName, h]
  · intro dc u su h1 h2 h3
    simp [sensorActionName, h1, h2, h3]
  · intro u su h1 h2
    simp [sensorActionName, h1, h2, show String.mk (pyStrip "") = "" from rfl]

/-- Witness for C8 at concrete inputs. -/
theorem C8_sensor_action_naming_witness :
    sensorActionName (some "x") (some "☂") = none ∧
    sensorActionName (some "power factor") (some "kWh") =
      some ("get" ++ camelToken (String.mk (pyStrip "power factor")) ++ "In" ++
        camelToken "kwh") ∧
    sensorActionName none (some "lx") = some ("getIn" ++ camelToken "lx") :=
  ⟨C8_sensor_action_naming.1 (some "x") (some "☂") (by decide),
   C8_sensor_action_naming.2.1 "power factor" "kWh" "kwh" (by decide) (by decide)
     (by decide),
   C8_sensor_action_naming.2.2.1 "lx" "lx" (by decide) (by decide)⟩

theorem runAdjust_all_nonneg (incL decL incB decB : Int) (start : Rat)
    (evs : List LuxEvent) :
    ∀ v ∈ runAdjust incL decL incB decB start evs, 0 ≤ v := by
  induction evs generalizing start with
  | nil => simp [runAdjust]
  | cons ev rest ih =>
    intro v hv
    rw [runAdjust] at hv
    by_cases hd : (deltaFromEvent ev incL decL incB decB).1 = 0
    · rw [if_pos hd] at hv
      exact ih start v hv
    · rw [if_neg hd] at hv
      rcases List.mem_cons.mp hv with h | h
      · rw [h]; exact adjustStep_nonneg _ _
      · exact ih _ v h

/-- C6: for every entity the mapped area is its own truthy `area_id`
when present, else the truthy `area_id` of its owning device (looked up
by `device_id`); an entity resolving to no area is absent from the
entity-to-area map; an entity with no own area whose device sits in
`kitchen` maps to `kitchen`, and one with neither maps to no area. -/
theorem C6_registry_index_builder (devices : List HADevice)
    (entities : List HAEntity) :
    (∀ (e : HAEntity) (a : String), truthy e.area_id = some a →
      entityArea devices e = some a) ∧
    (∀ (e : HAEntity) (did : String) (d : HADevice) (a : String),
      truthy e.area_id = none → truthy e.device_id = some did →
      devById devices did = some d → truthy d.area_id = some a →
      entityArea devices e = some a) ∧
    (∀ eid, (∀ e ∈ entities, e.entity_id = eid → entityArea devices e = none) →
      dictLookup (entToAreaList devices entities) eid = none) ∧
    entityArea [⟨"dev1", some "Lamp", some "kitchen"⟩]
      ⟨"light.l1", some "dev1", none⟩ = some "kitchen" ∧
    entityArea [⟨"dev2", none, none⟩] ⟨"light.l2", some "dev2", none⟩ = none := by
  refine ⟨?_, ?_, ?_, by decide, by decide⟩
  · intro e a h
    simp [entityArea, h]
  · intro e did d a h1 h2 h3 h4
    simp [entityArea, h1, h2, h3, h4]
  · intro eid h
    rw [entToAreaList, entToAreaList_lookup_frame devices eid entities [] h]
    rfl

/-- Witness for C6 at concrete inputs. -/
theorem C6_registry_index_builder_witness :
    entityArea [] ⟨"light.a", none, some "bedroom"⟩ = some "bedroom" ∧
    entityArea [⟨"d9", none, some "hall"⟩] ⟨"switch.s", some "d9", some ""⟩ =
      some "hall" ∧
    dictLookup (entToAreaList [] [⟨"light.b", none, none⟩]) "light.b" = none :=
  ⟨(C6_registry_index_builder [] []).1 ⟨"light.a", none, some "bedroom"⟩ "bedroom"
     (by decide),
   (C6_registry_index_builder [⟨"d9", none, some "hall"⟩] []).2.1
     ⟨"switch.s", some "d9", some ""⟩ "d9" ⟨"d9", none, some "hall"⟩ "hall"
     (by decide) (by decide) (by decide) (by decide),
   (C6_registry_index_builder [] [⟨"light.b", none, none⟩]).2.2.1 "light.b"
     (by decide)⟩

/-- C10: the fallback direct state write keeps the current state value
and all other attributes when the property is not `"state"`, writing
only the requested attribute; for `"state"` it keeps the attributes
unchanged and replaces only the state value. -/
theorem C10_fallback_write_frame (current : EntityState) (prop : String)
    (value : PyValue) :
    (prop ≠ "state" →
      (fallbackStatePayload current prop value).state = current.state ∧
      dictGet (fallbackStatePayload current prop value).attributes prop =
        some value ∧
      ∀ k, k ≠ prop →
        dictGet (fallbackStatePayload current prop value).attributes k =
          dictGet current.attributes k) ∧
    (prop = "state" →
      (fallbackStatePayload current prop value).state = some value ∧
      (fallbackStatePayload current prop value).attributes =
        current.attributes) := by
  constructor
  · intro h
    refine ⟨by simp [fallbackStatePayload, h], ?_, ?_⟩
    · simp [fallbackStatePayload, h, dictGet_dictSet_self]
    · intro k hk
      simp [fallbackStatePayload, h, dictGet_dictSet_other _ _ _ _ hk]
  · intro h
    simp [fallbackStatePayload, h]

/-- Witness for C10 at a concrete state and attribute map. -/
theorem C10_fallback_write_frame_witness :
    (fallbackStatePayload ⟨some (.str "on"), [("brightness", .int 10), ("color", .str "red")]⟩
        "brightness" (.int 99)).state = some (.str "on") ∧
    dictGet (fallbackStatePayload ⟨some (.str "on"), [("brightness", .int 10), ("color", .str "red")]⟩
        "brightness" (.int 99)).attributes "brightness" = some (.int 99) ∧
    dictGet (fallbackStatePayload ⟨some (.str "on"), [("brightness", .int 10), ("color", .str "red")]⟩
        "brightness" (.int 99)).attributes "color" =
      dictGet [("brightness", .int 10), ("color", .str "red")] "color" ∧
    (fallbackStatePayload ⟨some (.str "on"), [("color", .str "red")]⟩
        "state" (.str "off")).state = some (.str "off") :=
  ⟨((C10_fallback_write_frame ⟨some (.str "on"), [("brightness", .int 10), ("color", .str "red")]⟩
      "brightness" (.int 99)).1 (by decide)).1,
   ((C10_fallback_write_frame ⟨some (.str "on"), [("brightness", .int 10), ("color", .str "red")]⟩
      "brightness" (.int 99)).1 (by decide)).2.1,
   ((C10_fallback_write_frame ⟨some (.str "on"), [("brightness", .int 10), ("color", .str "red")]⟩
      "brightness" (.int 99)).1 (by decide)).2.2 "color" (by decide),
   ((C10_fallback_write_frame ⟨some (.str "on"), [("color", .str "red")]⟩
      "state" (.str "off")).2 (by decide)).1⟩

/-- The registry snapshots used by the C2 counterexample: empty at the
task-start fetch, one kitchen lamp afterwards. -/
def snapsEx : Nat → Registry := fun k =>
  if k = 0 then ⟨[], []⟩
  else ⟨[⟨"d1", some "Lamp", some "kitchen"⟩], [⟨"light.l1", some "d1", none⟩]⟩

/-- C2 counterexample: after the first reconnect the forwarder still
holds the index built from snapshot 0 (empty), while a wholesale
rebuild from the fresh snapshot 1 would map the lamp to `kitchen` — so
the index is not rebuilt on every transition into `SUBSCRIBED`. -/
theorem C2_counterexample :
    (forwarderAfter snapsEx 1).index ≠ buildEntityAreaMap (snapsEx 1) := by
  decide

/-- C2 (amended): the Registry Index is built wholesale exactly once,
from the single snapshot fetched when the forwarder task starts and
before its reconnect loop; reconnect cycles never rebuild it (and never
partially update it), so after any number of reconnects it still equals
the index of snapshot 0. -/
theorem C2_index_built_once (snaps : Nat → Registry) (n : Nat) :
    (forwarderAfter snaps n).index = buildEntityAreaMap (snaps 0) ∧
    (forwarderAfter snaps n).reconnects = n := by
  induction n with
  | zero => exact ⟨rfl, rfl⟩
  | succ k ih =>
    exact ⟨by simpa [forwarderAfter, forwarderReconnect] using ih.1,
           by simpa [forwarderAfter, forwarderReconnect] using ih.2⟩

/-- C9: every accumulator adjustment is `max(0, cur + delta)`, so every
written value is non-negative for any start and event sequence; light
on/off map to plus/minus the light increments, cover closing to minus
the blinds decrement; starting at 40, light-on with increment 100
writes 140 and then cover-closing with decrement 50 writes 90; starting
at 20, a decrement of 50 writes 0. -/
theorem C9_illuminance_accumulator (incL decL incB decB : Int) (cur start : Rat)
    (delta : Int) (evs : List LuxEvent) :
    adjustStep cur delta = max 0 (cur + (delta : Rat)) ∧
    (∀ v ∈ runAdjust incL decL incB decB start evs, 0 ≤ v) ∧
    deltaFromEvent ⟨"light.a", some ⟨some "on", none⟩, none⟩ incL decL incB decB =
      (incL, "light") ∧
    deltaFromEvent ⟨"light.a", some ⟨some "off", none⟩, none⟩ incL decL incB decB =
      (-decL, "light") ∧
    deltaFromEvent ⟨"cover.b", some ⟨some "closing", none⟩, none⟩ incL decL incB decB =
      (-decB, "cover") ∧
    runAdjust 100 100 50 50 (mkRat 40 1)
      [⟨"light.a", some ⟨some "on", none⟩, none⟩,
       ⟨"cover.b", some ⟨some "closing", none⟩, none⟩] =
      [mkRat 140 1, mkRat 90 1] ∧
    adjustStep (mkRat 20 1) (-50) = mkRat 0 1 := by
  refine ⟨?_, runAdjust_all_nonneg incL decL incB decB start evs, rfl, rfl, rfl,
    by decide, by decide⟩
  show ratMax0 (ratAdd cur (mkRat delta 1)) = max 0 (cur + (delta : Rat))
  rw [ratMax0_eq, ratAdd_eq, Rat.mkRat_one]

/-- Witness for C9: the written value 140 from the worked example is
non-negative. -/
theorem C9_illuminance_accumulator_witness : (0 : Rat) ≤ mkRat 140 1 :=
  (C9_illuminance_accumulator 100 100 50 50 (mkRat 40 1) (mkRat 40 1) 0
    [⟨"light.a", some ⟨some "on", none⟩, none⟩]).2.1 (mkRat 140 1) (by decide)

/-- C7: an event whose new state is absent, `"unknown"` or
`"unavailable"`, or whose entity has no resolvable area, or whose area
falls outside a non-empty allow-list, is dropped by the filter before
value classification runs and nothing is delivered to the monitor; the
empty allow-list blocks no area. -/
theorem C7_event_forwarder_filtering (index : RegIndex) (areas : List String)
    (baseWsUri : String) (msg : HAEventMsg) :
    ((msg.data.new_state.getD ⟨none, []⟩).state = none ∨
      (msg.data.new_state.getD ⟨none, []⟩).state = some "unknown" ∨
      (msg.data.new_state.getD ⟨none, []⟩).state = some "unavailable" →
      eventFilter index areas msg = none) ∧
    (∀ eid, truthy msg.data.entity_id = some eid →
      truthy (dictLookup index.entToArea eid) = none →
      eventFilter index areas msg = none) ∧
    (∀ eid area, truthy msg.data.entity_id = some eid →
      truthy (dictLookup index.entToArea eid) = some area →
      areas ≠ [] → area ∉ areas →
      eventFilter index areas msg = none) ∧
    (∀ a, areaBlocked [] a = false) ∧
    (eventFilter index areas msg = none →
      forwardEvent index areas baseWsUri msg = none) := by
  refine ⟨?_, ?_, ?_, by intro a; simp [areaBlocked], ?_⟩
  · intro h
    by_cases h1 : msg.type = "event"
    · by_cases h2 : msg.event_type = "state_changed"
      · cases he : truthy msg.data.entity_id with
        | none => simp [eventFilter, h1, h2, he]
        | some eid =>
          rcases h with h | h | h <;> simp [eventFilter, h1, h2, he, h]
      · simp [eventFilter, h1, h2]
    · simp [eventFilter, h1]
  · intro eid he ha
    by_cases h1 : msg.type = "event"
    · by_cases h2 : msg.event_type = "state_changed"
      · cases hs : (msg.data.new_state.getD ⟨none, []⟩).state with
        | none => simp [eventFilter, h1, h2, he, hs]
        | some st =>
          by_cases hu : st = "unknown" ∨ st = "unavailable"
          · simp [eventFilter, h1, h2, he, hs, hu]
          · simp [eventFilter, h1, h2, he, hs, hu, ha]
      · simp [eventFilter, h1, h2]
    · simp [eventFilter, h1]
  · intro eid area he ha h3 h4
    by_cases h1 : msg.type = "event"
    · by_cases h2 : msg.event_type = "state_changed"
      · cases hs : (msg.data.new_state.getD ⟨none, []⟩).state with
        | none => simp [eventFilter, h1, h2, he, hs]
        | some st =>
          by_cases hu : st = "unknown" ∨ st = "unavailable"
          · simp [eventFilter, h1, h2, he, hs, hu]
          · have hb : areaBlocked areas area = true := by
              simp [areaBlocked, h3, h4]
            simp [eventFilter, h1, h2, he, hs, hu, ha, hb]
      · simp [eventFilter, h1, h2]
    · simp [eventFilter, h1]
  · intro h
    simp [forwardEvent, h]

/-- Witness for C7 at concrete events and allow-lists. -/
theorem C7_event_forwarder_filtering_witness :
    eventFilter ⟨[("light.l1", "kitchen")], [], []⟩ ["kitchen"]
      ⟨"event", "state_changed", ⟨some "light.l1", some ⟨some "unavailable", []⟩⟩,
        none⟩ = none ∧
    eventFilter ⟨[], [], []⟩ []
      ⟨"event", "state_changed", ⟨some "light.zz", some ⟨some "42", []⟩⟩, none⟩ =
      none ∧
    eventFilter ⟨[("light.l1", "kitchen")], [], []⟩ ["office"]
      ⟨"event", "state_changed", ⟨some "light.l1", some ⟨some "42", []⟩⟩, none⟩ =
      none ∧
    forwardEvent ⟨[("light.l1", "kitchen")], [], []⟩ ["office"] "http://b/"
      ⟨"event", "state_changed", ⟨some "light.l1", some ⟨some "42", []⟩⟩, none⟩ =
      none :=
  ⟨(C7_event_forwarder_filtering ⟨[("light.l1", "kitchen")], [], []⟩ ["kitchen"]
      "http://b/" _).1 (by decide),
   (C7_event_forwarder_filtering ⟨[], [], []⟩ [] "http://b/" _).2.1 "light.zz"
     (by decide) (by decide),
   (C7_event_forwarder_filtering ⟨[("light.l1", "kitchen")], [], []⟩ ["office"]
      "http://b/" _).2.2.1 "light.l1" "kitchen" (by decide) (by decide)
     (by decide) (by decide),
   (C7_event_forwarder_filtering ⟨[("light.l1", "kitchen")], [], []⟩ ["office"]
      "http://b/" _).2.2.2.2 (by decide)⟩

/-- C1: Phase B of the Service Selector — a service definition is a
candidate iff it declares an explicit `entity_id` field (legacy) or its
target-entity-domain lists include the entity's domain (modern), with
the stated additive score, score-0 candidates excluded; the selection
equals the first-seen highest-scoring candidate (the head of a stable
descending sort), so for a fixed catalog and request the chosen service
is uniquely determined. -/
theorem C1_phaseB_scoring (entDomain prop : String)
    (services : List ServiceDomain) :
    (∀ c : Choice, c ∈ phaseBCandidates entDomain prop services ↔
      ∃ svc ∈ services, ∃ nv ∈ svc.services,
        (legacyApplies nv.2 = true ∨ modernApplies entDomain nv.2 = true) ∧
        0 < serviceScore entDomain prop svc.domain nv.1 nv.2 ∧
        c = ⟨svc.domain, nv.1, nv.2.fields,
          serviceScore entDomain prop svc.domain nv.1 nv.2⟩) ∧
    phaseB entDomain prop services =
      firstMaxBy (fun c => c.score) (phaseBCandidates entDomain prop services) ∧
    (∀ v, phaseA entDomain prop v = none →
      select_service entDomain prop v services = phaseB entDomain prop services) := by
  refine ⟨?_, phaseB_eq_firstMaxBy entDomain prop services, ?_⟩
  · intro c
    simp only [phaseBCandidates, List.mem_flatten, List.mem_map, List.mem_filterMap]
    constructor
    · rintro ⟨l, ⟨svc, hsvc, rfl⟩, hc⟩
      obtain ⟨nv, hnv, heq⟩ := List.mem_filterMap.mp hc
      refine ⟨svc, hsvc, nv, hnv, ?_⟩
      by_cases hap : legacyApplies nv.2 ∨ modernApplies entDomain nv.2
      · rw [if_pos hap] at heq
        by_cases hsc : 0 < serviceScore entDomain prop svc.domain nv.1 nv.2
        · rw [if_pos hsc] at heq
          exact ⟨by simpa using hap, hsc, (Option.some.inj heq).symm⟩
        · rw [if_neg hsc] at heq
          exact absurd heq (by simp)
      · rw [if_neg hap] at heq
        exact absurd heq (by simp)
    · rintro ⟨svc, hsvc, nv, hnv, hap, hsc, rfl⟩
      refine ⟨_, ⟨svc, hsvc, rfl⟩, List.mem_filterMap.mpr ⟨nv, hnv, ?_⟩⟩
      rw [if_pos (by simpa using hap), if_pos hsc]
  · intro v h
    simp [select_service, h]

/-- Witness for C1: the spec §8 fixture — entity domain `sensor`,
property `brightness`, a `virtual.set_value` service with an
`entity_id` and a `value` field scores 5 + 3 = 8 and is a candidate;
Phase A does not apply, so selection runs Phase B. -/
theorem C1_phaseB_scoring_witness :
    phaseA "sensor" "brightness" "50" = none ∧
    select_service "sensor" "brightness" "50"
        [⟨"virtual", [("set_value", ⟨["entity_id", "value"], []⟩)]⟩] =
      phaseB "sensor" "brightness"
        [⟨"virtual", [("set_value", ⟨["entity_id", "value"], []⟩)]⟩] ∧
    (⟨"virtual", "set_value", ["entity_id", "value"], 8⟩ : Choice) ∈
      phaseBCandidates "sensor" "brightness"
        [⟨"virtual", [("set_value", ⟨["entity_id", "value"], []⟩)]⟩] :=
  ⟨by decide,
   (C1_phaseB_scoring "sensor" "brightness"
     [⟨"virtual", [("set_value", ⟨["entity_id", "value"], []⟩)]⟩]).2.2 "50"
     (by decide),
   ((C1_phaseB_scoring "sensor" "brightness"
     [⟨"virtual", [("set_value", ⟨["entity_id", "value"], []⟩)]⟩]).1
     ⟨"virtual", "set_value", ["entity_id", "value"], 8⟩).mpr
     ⟨⟨"virtual", [("set_value", ⟨["entity_id", "value"], []⟩)]⟩, by decide,
      ("set_value", ⟨["entity_id", "value"], []⟩), by decide,
      Or.inl (by decide), by decide, by decide⟩⟩

/-- C4 counterexample: for the cover domain with desired value `"on"`
(a normalized on-value) the code takes no Phase A shortcut to the
open-cover operation — Phase A yields nothing and selection falls
through to Phase B, so on an empty catalog nothing is selected, while
the claim requires the open-cover operation. -/
theorem C4_counterexample :
    phaseA "cover" "state" "on" = none ∧
    select_service "cover" "state" "on" [] ≠
      some ⟨"cover", "open_cover", ["entity_id"], 100⟩ := by
  decide

/-- C4 (amended): for domains light/switch/fan/input_boolean Phase A
maps normalized on-values to `turn_on` and off-values to `turn_off`,
bypassing Phase B scoring; for the cover domain only `"open"` maps to
`open_cover` and only `"closed"`/`"close"` map to `close_cover`, while
the other on/off-values (such as `"on"`) fall through to Phase B; in
particular entity domain light, property `"state"`, value `"on"`
selects the canonical turn-on operation. -/
theorem C4_phaseA_shortcut (d v : String) (services : List ServiceDomain) :
    (d = "light" ∨ d = "switch" ∨ d = "fan" ∨ d = "input_boolean" →
      (normDesired v ∈ onValues →
        select_service d "state" v services =
          some ⟨d, "turn_on", ["entity_id"], 100⟩) ∧
      (normDesired v ∈ offValues →
        select_service d "state" v services =
          some ⟨d, "turn_off", ["entity_id"], 100⟩)) ∧
    (normDesired v = "open" →
      select_service "cover" "state" v services =
        some ⟨"cover", "open_cover", ["entity_id"], 100⟩) ∧
    (normDesired v = "closed" ∨ normDesired v = "close" →
      select_service "cover" "state" v services =
        some ⟨"cover", "close_cover", ["entity_id"], 100⟩) ∧
    (normDesired v ∈ onValues → normDesired v ≠ "open" →
      select_service "cover" "state" v services =
        phaseB "cover" "state" services) ∧
    select_service "light" "state" "on" services =
      some ⟨"light", "turn_on", ["entity_id"], 100⟩ := by
  refine ⟨?_, ?_, ?_, ?_, rfl⟩
  · intro hd
    constructor
    · intro hv
      have hv2 : normDesired v = "on" ∨ normDesired v = "true" ∨
          normDesired v = "1" ∨ normDesired v = "open" := by
        simpa [onValues] using hv
      rcases hd with rfl | rfl | rfl | rfl <;>
        rcases hv2 with h | h | h | h <;>
          simp [select_service, phaseA, h, onValues, offValues]
    · intro hv
      have hv2 : normDesired v = "off" ∨ normDesired v = "false" ∨
          normDesired v = "0" ∨ normDesired v = "closed" ∨
          normDesired v = "close" := by
        simpa [offValues] using hv
      rcases hd with rfl | rfl | rfl | rfl <;>
        rcases hv2 with h | h | h | h | h <;>
          simp [select_service, phaseA, h, onValues, offValues]
  · intro hv
    simp [select_service, phaseA, hv, onValues, offValues]
  · intro hv
    rcases hv with h | h <;> simp [select_service, phaseA, h, onValues, offValues]
  · intro hv hne
    have hv2 : normDesired v = "on" ∨ normDesired v = "true" ∨
        normDesired v = "1" ∨ normDesired v = "open" := by
      simpa [onValues] using hv
    rcases hv2 with h | h | h | h <;> first
      | exact absurd h hne
      | simp [select_service, phaseA, h, onValues, offValues]

/-- Witness for C4 at concrete domains and values. -/
theorem C4_phaseA_shortcut_witness :
    select_service "switch" "state" " TRUE " [] =
      some ⟨"switch", "turn_on", ["entity_id"], 100⟩ ∧
    select_service "fan" "state" "0" [] =
      some ⟨"fan", "turn_off", ["entity_id"], 100⟩ ∧
    select_service "cover" "state" "Open" [] =
      some ⟨"cover", "open_cover", ["entity_id"], 100⟩ ∧
    select_service "cover" "state" "close" [] =
      some ⟨"cover", "close_cover", ["entity_id"], 100⟩ ∧
    select_service "cover" "state" "true" [] = phaseB "cover" "state" [] :=
  ⟨((C4_phaseA_shortcut "switch" " TRUE " []).1 (Or.inr (Or.inl rfl))).1 (by decide),
   ((C4_phaseA_shortcut "fan" "0" []).1 (Or.inr (Or.inr (Or.inl rfl)))).2 (by decide),
   (C4_phaseA_shortcut "cover" "Open" []).2.1 (by decide),
   (C4_phaseA_shortcut "cover" "close" []).2.2.1 (Or.inr (by decide)),
   (C4_phaseA_shortcut "cover" "true" []).2.2.2.1 (by decide) (by decide)⟩

/-- C5 counterexample: for property `"brightness"` and a chosen service
declaring a `"value"` field (and no `"brightness"` field), the code
attaches the value under `"brightness"`, not under `"value"` as the
claim requires. -/
theorem C5_counterexample :
    buildPayload "light.x" "light" "brightness" ["value"] (.int 50) =
      [("entity_id", .str "light.x"), ("brightness", .int 50)] ∧
    claimedPayload "light.x" "brightness" ["value"] (.int 50) =
      [("entity_id", .str "light.x"), ("value", .int 50)] ∧
    buildPayload "light.x" "light" "brightness" ["value"] (.int 50) ≠
      claimedPayload "light.x" "brightness" ["value"] (.int 50) := by
  decide

/-- C5 (amended): the payload always starts from
`{"entity_id": entity_id}`; when the property is `"state"` the value is
attached under `"value"` exactly when the service declares a `"value"`
field and otherwise no value entry is added at all; for every other
property the value is attached under the property name itself,
regardless of the declared fields. -/
theorem C5_payload_construction (entity_id entDomain prop : String)
    (fields : List String) (v : PyValue) :
    buildPayload entity_id entDomain prop fields v =
      (if prop = "state" then
        (if fields.contains "value" then
          [("entity_id", PyValue.str entity_id), ("value", v)]
        else [("entity_id", PyValue.str entity_id)])
      else dictSet [("entity_id", PyValue.str entity_id)] prop v) := by
  by_cases h : prop = "state"
  · by_cases hv : "value" ∈ fields
    · simp [buildPayload, h, hv, dictSet]
    · simp [buildPayload, h, hv]
  · by_cases hf : prop ∈ fields
    · simp [buildPayload, h, hf]
    · by_cases hl : entDomain = "light" ∧ (prop = "brightness" ∨ prop = "brightness_pct")
      · simp [buildPayload, h, hf, hl]
      · simp [buildPayload, h, hf, hl]

end AmiAdapter
